import Mathlib

/-
Verification of the Paradex-Daydreams trading client core
(src/src/paradex.ts) against its natural-language specification.

The embedding models the numeric semantics the code relies on:
JavaScript Number() coercion, the bignumber.js decimal arithmetic used
by toQuantums, the order-signing message assembly, the risk/position
sizing arithmetic (over ℚ, exact rational semantics), the batch order
pipeline, and the per-endpoint error behaviour of the HTTP wrappers as
functions of an abstract fetch outcome.
-/

namespace Paradex

/-- A finite decimal value, significand times ten to the exponent: the
internal representation of bignumber.js (coefficient and exponent), and
exact for every numeric literal this client handles. Its rational value
is given by toRat below. -/
structure Dec where
  m : ℤ
  e : ℤ
deriving DecidableEq

/-- The rational value of a finite decimal. -/
def Dec.toRat (d : Dec) : ℚ := (d.m : ℚ) * (10 : ℚ) ^ d.e

/-- A JavaScript numeric value as produced by Number() or by the
bignumber.js constructor: NaN, one of the two infinities, or a finite
decimal. -/
inductive JsNum where
  | nan
  | posInf
  | negInf
  | num (d : Dec)
deriving DecidableEq

/-- Numeric value of a list of ASCII digit characters, most significant
first (the empty list reads as 0; callers check emptiness themselves). -/
def digitsToNat (l : List Char) : ℕ :=
  l.foldl (fun acc c => acc * 10 + (c.toNat - 48)) 0

/-- Exponent suffix of a numeric literal: an optional sign followed by
at least one digit. -/
def parseExp (cs : List Char) : Option ℤ :=
  let (neg, r) :=
    match cs with
    | '-' :: t => (true, t)
    | '+' :: t => (false, t)
    | t => (false, t)
  if !r.isEmpty && r.all Char.isDigit then
    some (if neg then -(digitsToNat r : ℤ) else (digitsToNat r : ℤ))
  else none

/-- Unsigned decimal magnitude of a numeric literal: digits with an
optional fraction part and an optional scientific exponent, at least one
mantissa digit required. This is the decimal grammar shared by JS
Number() and by bignumber.js (radix-prefixed literals such as 0x..,
which no input of this development uses, are outside the model). -/
def parseDecMag (cs : List Char) : Option Dec :=
  let ip := cs.takeWhile Char.isDigit
  let r1 := cs.dropWhile Char.isDigit
  let (fp, r2) :=
    match r1 with
    | '.' :: t => (t.takeWhile Char.isDigit, t.dropWhile Char.isDigit)
    | _ => ([], r1)
  if ip.isEmpty && fp.isEmpty then none
  else
    let m : ℤ := (digitsToNat ip : ℤ) * 10 ^ fp.length + (digitsToNat fp : ℤ)
    let e0 : ℤ := -(fp.length : ℤ)
    match r2 with
    | [] => some ⟨m, e0⟩
    | 'e' :: t => (parseExp t).map (fun ex => ⟨m, e0 + ex⟩)
    | 'E' :: t => (parseExp t).map (fun ex => ⟨m, e0 + ex⟩)
    | _ => none

/-- A signed numeric literal body: optional sign, then either the word
Infinity or a decimal magnitude; anything else is NaN. -/
def parseNumBody (cs : List Char) : JsNum :=
  let (neg, rest) :=
    match cs with
    | '-' :: r => (true, r)
    | '+' :: r => (false, r)
    | r => (false, r)
  if rest = ['I', 'n', 'f', 'i', 'n', 'i', 't', 'y'] then
    if neg then JsNum.negInf else JsNum.posInf
  else
    match parseDecMag rest with
    | some d => JsNum.num (if neg then ⟨-d.m, d.e⟩ else d)
    | none => JsNum.nan

/-- Whitespace that JS Number() trims from a string before conversion
(ASCII whitespace and NBSP; the exotic Unicode space classes never occur
in this repository's inputs). -/
def isJsSpace (c : Char) : Bool :=
  (9 ≤ c.toNat && c.toNat ≤ 13) || c.toNat = 32 || c.toNat = 160

/-- Both ends of a character list trimmed of JS whitespace. -/
def trimChars (cs : List Char) : List Char :=
  ((cs.dropWhile isJsSpace).reverse.dropWhile isJsSpace).reverse

/-- JS Number(string): trims whitespace, converts the empty string to 0,
and otherwise reads a signed decimal/scientific literal or Infinity;
every other string is NaN. -/
def jsNumber (s : String) : JsNum :=
  let cs := trimChars s.toList
  if cs.isEmpty then JsNum.num ⟨0, 0⟩ else parseNumBody cs

/-- The bignumber.js constructor BigNumber(string): the same literal
grammar, but nothing is trimmed and the empty string is NaN (and with
BigNumber.DEBUG unset, as in this repository, a malformed string yields
a NaN value rather than raising). -/
def bigNumParse (s : String) : JsNum :=
  parseNumBody s.toList

/-- BigNumber.multipliedBy a positive power of ten: exact on finite
values (the exponent moves), NaN and the infinities propagate
unchanged. -/
def bnMulPow10 : JsNum → ℕ → JsNum
  | JsNum.num d, p => JsNum.num ⟨d.m, d.e + p⟩
  | x, _ => x

/-- BigNumber.integerValue(BigNumber.ROUND_FLOOR) on a finite decimal:
the value rounded toward negative infinity. For a nonnegative exponent
the value is already the integer m * 10^e; otherwise it is the floor
division of the significand by 10^(-e) (Lean's Int division is Euclidean,
which agrees with floor division because the divisor is positive). -/
def decFloor (d : Dec) : ℤ :=
  if 0 ≤ d.e then d.m * 10 ^ d.e.toNat else d.m / 10 ^ (-d.e).toNat

/-- BigNumber.toString applied to an integer value: plain base-10
digits while the magnitude stays below 10^21, and exponential notation
at or above it — the decimal exponent then exceeds the EXPONENTIAL_AT
default upper bound of 20, which this repository never reconfigures.
The exponential form is the significant digits with trailing zeros
stripped, a point after the first digit when more than one remains,
and the suffix e+ with the decimal exponent, with a minus sign in
front for negative values. -/
def bnIntToString (n : ℤ) : String :=
  if n.natAbs < 10 ^ 21 then n.repr
  else
    let ds := Nat.toDigits 10 n.natAbs
    let t := (ds.reverse.dropWhile (fun c => c == '0')).reverse
    let mant :=
      match t with
      | [] => "0"
      | [c] => String.mk [c]
      | c :: rest => String.mk [c] ++ "." ++ String.mk rest
    (if n < 0 then "-" else "") ++ mant ++ "e+" ++ Nat.repr (ds.length - 1)

/-- toQuantums (src/src/paradex.ts lines 638-645):
BigNumber(amount).multipliedBy(BigNumber(10).pow(precision))
.integerValue(BigNumber.ROUND_FLOOR).toString(). ROUND_FLOOR truncates
toward negative infinity, toString of a NaN value is the string NaN,
and an integer result is rendered by bnIntToString: plain digits below
10^21 and BigNumber's exponential notation at or above. -/
def toQuantums (amount : String) (precision : ℕ) : String :=
  match bnMulPow10 (bigNumParse amount) precision with
  | JsNum.num d => bnIntToString (decFloor d)
  | JsNum.nan => "NaN"
  | JsNum.posInf => "Infinity"
  | JsNum.negInf => "-Infinity"

/-- The JS comparison price <= 0 applied to a Number() result: every
comparison against NaN is false, -Infinity is below zero, +Infinity is
not, and a finite decimal m * 10^e is at most zero exactly when its
significand is (the power of ten is positive; toRat_nonpos below proves
the equivalence with the value-level comparison). -/
def jsLeZero : JsNum → Bool
  | JsNum.num d => decide (d.m ≤ 0)
  | JsNum.negInf => true
  | JsNum.posInf => false
  | JsNum.nan => false

/-- The price validation openOrder performs before any signing work
(src/src/paradex.ts lines 240-244): price = Number(orderDetails.price);
if (price <= 0) throw. An absent price field reads as undefined and
Number(undefined) is NaN. -/
def openOrderPriceCheck (price : Option String) : Except String Unit :=
  let p := match price with
    | some s => jsNumber s
    | none => JsNum.nan
  if jsLeZero p then
    Except.error "Order failed: price must be a non-negative non-zero number."
  else Except.ok ()

/-- In openOrder the signer (signOrder) runs immediately after the price
check, before the network call: it is invoked exactly when the check
passes. -/
def openOrderInvokesSigner (price : Option String) : Bool :=
  match openOrderPriceCheck price with
  | Except.ok _ => true
  | Except.error _ => false

/-- The order shape executeBatchOrders receives (src/src/paradex.ts
lines 467-474); openOrder reads the same fields from its
Record argument. -/
structure OrderDetails where
  market : String
  side : String
  type : String
  size : String
  price : Option String
  timeInForceType : Option String
deriving DecidableEq

/-- shortString.encodeShortString from starknet.js: the ASCII codes of
the characters written as two hex digits each and concatenated behind
0x (for the printable-ASCII strings this client passes, this equals the
big-endian byte packing of the string into a felt). -/
def encodeShortString (s : String) : String :=
  "0x" ++ String.mk (Nat.toDigits 16 (s.toList.foldl (fun acc c => acc * 256 + c.toNat) 0))

/-- The message field set of the Order typed data built by signOrder
(src/src/paradex.ts lines 557-564). -/
structure OrderMessage where
  timestamp : ℤ
  market : String
  side : String
  orderType : String
  size : String
  price : String
deriving DecidableEq

/-- signOrder's message assembly (src/src/paradex.ts lines 542-564):
side is written "1" when orderDetails.side === "BUY" and "2" in every
other case; price defaults to "0" when absent; size and price pass
through toQuantums at precision 8; order type and market are
short-string encoded. The hash-and-sign step downstream of this message
is the starknet library and is outside the model. -/
def signOrderMessage (od : OrderDetails) (timestamp : ℤ) : OrderMessage :=
  { timestamp := timestamp
    market := encodeShortString od.market
    side := if od.side = "BUY" then "1" else "2"
    orderType := encodeShortString od.type
    size := toQuantums od.size 8
    price := toQuantums (od.price.getD "0") 8 }

/-- The three risk tiers of calculatePositionLimits. -/
inductive RiskLevel where
  | LOW
  | MEDIUM
  | HIGH
deriving DecidableEq

/-- A risk band as calculatePositionLimits returns it
(src/src/paradex.ts lines 36-40). -/
structure RiskBand where
  level : RiskLevel
  maxPositionSize : ℚ
  stopLossPercent : ℚ
deriving DecidableEq

/-- The position limits record (src/src/paradex.ts lines 42-47). -/
structure PositionLimits where
  maxLeverage : ℚ
  maxPositionValue : ℚ
  recommendedPositionSize : ℚ
  riskBand : RiskBand
deriving DecidableEq

/-- calculatePositionLimits (src/src/paradex.ts lines 316-365), with
JS number arithmetic modelled exactly over ℚ (every constant involved
is decimal). The marketData argument of the source is unused by its
body and is omitted. Note the source puts no lower bound on
volatilityAdjustedLeverage. -/
def calculatePositionLimits (accountValue volatility : ℚ) : PositionLimits :=
  let baseMaxLeverage : ℚ := 20
  let volatilityAdjustedLeverage := min baseMaxLeverage (baseMaxLeverage * (1 - volatility * 5))
  let maxPositionValue := accountValue * volatilityAdjustedLeverage
  let riskBand : RiskBand :=
    if volatility < 0.02 then
      { level := RiskLevel.LOW, maxPositionSize := accountValue * 0.5, stopLossPercent := 2 }
    else if volatility < 0.05 then
      { level := RiskLevel.MEDIUM, maxPositionSize := accountValue * 0.3, stopLossPercent := 5 }
    else
      { level := RiskLevel.HIGH, maxPositionSize := accountValue * 0.1, stopLossPercent := 10 }
  let recommendedPositionSize := min riskBand.maxPositionSize (maxPositionValue * 0.25)
  { maxLeverage := volatilityAdjustedLeverage
    maxPositionValue := maxPositionValue
    recommendedPositionSize := recommendedPositionSize
    riskBand := riskBand }

/-- The risk band exactly as the specification words it (section 4.6):
volatility below 0.02 is LOW with a 50 percent equity cap and 2 percent
stop, below 0.05 is MEDIUM with a 30 percent cap and 5 percent stop,
otherwise HIGH with a 10 percent cap and 10 percent stop. Kept separate
from the source embedding so the two can be compared. -/
def riskBandSpec (accountValue volatility : ℚ) : RiskBand :=
  if volatility < 0.02 then
    { level := RiskLevel.LOW, maxPositionSize := accountValue * 0.5, stopLossPercent := 2 }
  else if volatility < 0.05 then
    { level := RiskLevel.MEDIUM, maxPositionSize := accountValue * 0.3, stopLossPercent := 5 }
  else
    { level := RiskLevel.HIGH, maxPositionSize := accountValue * 0.1, stopLossPercent := 10 }

/-- The successful outcome openOrder yields to a batch item: an order id
and a status (src/src/paradex.ts lines 277-282). -/
structure OpenOrderOk where
  orderId : String
  status : String
deriving DecidableEq

/-- One slot of a batch result (src/src/paradex.ts lines 62-67). -/
structure BatchOrderResult where
  orderId : String
  market : String
  status : String
  error : Option String
deriving DecidableEq

/-- openOrder as a batch item sees it: the price validation runs first
and its rejection is thrown; afterwards the signing and HTTP exchange
are an external effect, abstracted as a function from the order to a
success value or a thrown error message. -/
def openOrderModel (exchange : OrderDetails → Except String OpenOrderOk)
    (od : OrderDetails) : Except String OpenOrderOk :=
  match openOrderPriceCheck od.price with
  | Except.error e => Except.error e
  | Except.ok _ => exchange od

/-- executeBatchOrders (src/src/paradex.ts lines 464-498): each order is
dispatched independently, a success is recorded with its id and status,
and a thrown error is caught in that order's slot as status FAILED with
the error message; the map itself never throws (in the source every
rejection is caught inside the per-order closure, so Promise.all sees
only fulfilled promises). openOrderF abstracts what openOrder does for
one order. -/
def executeBatchOrders (openOrderF : OrderDetails → Except String OpenOrderOk)
    (orders : List OrderDetails) : List BatchOrderResult :=
  orders.map (fun od =>
    match openOrderF od with
    | Except.ok r => { orderId := r.orderId, market := od.market, status := r.status, error := none }
    | Except.error e => { orderId := "", market := od.market, status := "FAILED", error := some e })

/-- SEVEN_DAYS_MS (src/src/paradex.ts line 76). -/
def SEVEN_DAYS_MS : ℕ := 7 * 24 * 60 * 60 * 1000

/-- The pair generateTimestamps returns. -/
structure Timestamps where
  timestamp : ℕ
  expiration : ℕ
deriving DecidableEq

/-- generateTimestamps (src/src/paradex.ts lines 505-516) as a function
of the clock reading nowMs = Date.now() in milliseconds: both fields
are floor-divided by 1000 after the expiration date is advanced by
seven days in milliseconds. -/
def generateTimestamps (nowMs : ℕ) : Timestamps :=
  { timestamp := nowMs / 1000
    expiration := (nowMs + SEVEN_DAYS_MS) / 1000 }

/-- The duck-typed JSON body the endpoints read: a results array (its
elements are irrelevant to the claims and stand as strings), an optional
jwt_token and an optional message. An absent field is none. -/
structure JsonBody where
  results : Option (List String)
  jwtToken : Option String
  message : Option String
deriving DecidableEq

/-- What the external fetch produced for one request: a rejection of the
fetch or of response.json() (networkError), or a settled response with
its ok flag, status code, status text and parsed body. -/
inductive FetchOutcome where
  | networkError (msg : String)
  | response (ok : Bool) (status : ℕ) (statusText : String) (body : JsonBody)
deriving DecidableEq

/-- How a JS async function call settles for its caller: with a value,
with undefined, or by throwing. -/
inductive JsResult (α : Type) where
  | value (a : α)
  | undef
  | thrown (msg : String)
deriving DecidableEq

/-- JS truthiness of an optional string field: an absent field and the
empty string are falsy. -/
def truthyStr : Option String → Bool
  | some s => !(s = "")
  | none => false

/-- The JS expression errorData.message || fallback: the message when it
is present and truthy, the fallback otherwise. -/
def jsOrStr (message : Option String) (fallback : String) : String :=
  match message with
  | some m => if m = "" then fallback else m
  | none => fallback

/-- authenticate (src/src/paradex.ts lines 82-117) after the headers are
built, as a function of the fetch outcome: a non-ok response throws with
the status and server message, a 2xx body without a truthy jwt_token
throws the fixed message, a truthy jwt_token is returned, and the catch
block logs and rethrows, so every failure stays thrown. -/
def authenticate : FetchOutcome → JsResult String
  | FetchOutcome.networkError m => JsResult.thrown m
  | FetchOutcome.response ok status statusText body =>
    if ok then
      match body.jwtToken with
      | some t =>
        if t = "" then JsResult.thrown "No JWT token received from authentication"
        else JsResult.value t
      | none => JsResult.thrown "No JWT token received from authentication"
    else
      JsResult.thrown ("Authentication failed: " ++ toString status ++ " - "
        ++ jsOrStr body.message statusText)

/-- listAvailableMarkets (src/src/paradex.ts lines 153-184): a non-ok
status throws, a body without results throws, and the catch block
rethrows, so failures propagate. -/
def listAvailableMarkets : FetchOutcome → JsResult (List String)
  | FetchOutcome.networkError m => JsResult.thrown m
  | FetchOutcome.response ok status _ body =>
    if ok then
      match body.results with
      | some r => JsResult.value r
      | none => JsResult.thrown "No results found in response"
    else JsResult.thrown ("HTTP error! status: " ++ toString status)

/-- getPositions (src/src/paradex.ts lines 187-208): a non-ok status
throws inside the try, but the catch block only logs (console.error)
and falls off the end of the function, so the caller receives
undefined; a missing results field is likewise returned as undefined. -/
def getPositions : FetchOutcome → JsResult (List String)
  | FetchOutcome.networkError _ => JsResult.undef
  | FetchOutcome.response ok _ _ body =>
    if ok then
      match body.results with
      | some r => JsResult.value r
      | none => JsResult.undef
    else JsResult.undef

/-- getOpenOrders (src/src/paradex.ts lines 211-232): the same shape as
getPositions, including the catch block that only logs. -/
def getOpenOrders : FetchOutcome → JsResult (List String)
  | FetchOutcome.networkError _ => JsResult.undef
  | FetchOutcome.response ok _ _ body =>
    if ok then
      match body.results with
      | some r => JsResult.value r
      | none => JsResult.undef
    else JsResult.undef

/-- cancelOrder (src/src/paradex.ts lines 290-313): true on a 2xx
response; a non-ok status throws inside the try and the catch block
only logs, so the caller receives undefined. -/
def cancelOrder : FetchOutcome → JsResult Bool
  | FetchOutcome.networkError _ => JsResult.undef
  | FetchOutcome.response ok _ _ _ =>
    if ok then JsResult.value true else JsResult.undef

/-- The value of a finite decimal is at most zero exactly when its
significand is: the bridge between the significand test the code's
comparison amounts to and the value-level comparison JS performs. -/
lemma Dec.toRat_nonpos (d : Dec) : d.toRat ≤ 0 ↔ d.m ≤ 0 := by
  have h : (0:ℚ) < (10:ℚ) ^ d.e := zpow_pos (by norm_num) _
  unfold Dec.toRat
  constructor
  · intro hle
    by_contra hm
    push_neg at hm
    have hm' : (0:ℚ) < (d.m : ℚ) := by exact_mod_cast hm
    nlinarith
  · intro hm
    have hm' : (d.m : ℚ) ≤ 0 := by exact_mod_cast hm
    exact mul_nonpos_of_nonpos_of_nonneg hm' h.le

/-- decFloor computes the floor of the decimal's rational value. -/
lemma decFloor_eq_floor (d : Dec) : decFloor d = ⌊d.toRat⌋ := by
  unfold decFloor Dec.toRat
  split
  · next h =>
    rw [show (10:ℚ) ^ d.e = ((10 ^ d.e.toNat : ℤ) : ℚ) by
      push_cast
      rw [← zpow_natCast]
      congr 1
      omega]
    rw [← Int.cast_mul, Int.floor_intCast]
  · next h =>
    obtain ⟨k, hk⟩ : ∃ k : ℕ, d.e = -(k : ℤ) := ⟨(-d.e).toNat, by omega⟩
    rw [hk]
    simp only [neg_neg, Int.toNat_natCast]
    rw [zpow_neg, zpow_natCast, ← div_eq_mul_inv]
    rw [show ((10:ℚ) ^ k) = ((10 ^ k : ℕ) : ℚ) by push_cast; rfl]
    rw [Rat.floor_intCast_div_natCast]
    push_cast
    rfl

/-- Claim C1 (amended): openOrder rejects with the ValidationError,
before the signer runs, exactly those orders whose price field reads
under JS Number() as a finite value at most zero or as negative
infinity; in particular the prices "0" and "-5" are rejected before any
signing work. A price whose Number() value is NaN (every non-numeric
string) or positive passes the check, so the claim's demand that
non-numeric strings be rejected does not hold of the code (the
counterexample theorem shows the signer is invoked on price "abc"). -/
theorem openOrder_price_validation (s : String) :
    (openOrderPriceCheck (some s) =
        Except.error "Order failed: price must be a non-negative non-zero number." ↔
      (∃ d, jsNumber s = JsNum.num d ∧ d.toRat ≤ 0) ∨ jsNumber s = JsNum.negInf) ∧
    openOrderPriceCheck (some "0") =
      Except.error "Order failed: price must be a non-negative non-zero number." ∧
    openOrderPriceCheck (some "-5") =
      Except.error "Order failed: price must be a non-negative non-zero number." := by
  refine ⟨?_, rfl, rfl⟩
  unfold openOrderPriceCheck
  cases h : jsNumber s with
  | nan => simp [jsLeZero, h]
  | posInf => simp [jsLeZero, h]
  | negInf => simp [jsLeZero, h]
  | num d =>
    simp only [h, jsLeZero]
    by_cases hm : d.m ≤ 0
    · simp [hm, Dec.toRat_nonpos]
    · simp [hm, Dec.toRat_nonpos]

/-- Claim C1, counterexample: the price "abc" is not a strictly positive
finite number (it is NaN), yet openOrder's validation passes it — the
JS comparison NaN <= 0 is false — and the signer is invoked. -/
theorem openOrder_nonNumeric_price_cex :
    jsNumber "abc" = JsNum.nan ∧
    openOrderPriceCheck (some "abc") = Except.ok () ∧
    openOrderInvokesSigner (some "abc") = true :=
  ⟨by decide, rfl, by decide⟩

/-- Claim C2 (amended): toQuantums quantizes by floor. For every amount
string the BigNumber constructor accepts as a finite decimal, the value
produced is the floor of amount * 10^precision computed exactly, and it
is rendered as the plain base-10 integer string whenever its magnitude
stays below 10^21; at or above that, BigNumber.toString (EXPONENTIAL_AT
default 20, never reconfigured here) renders the same integer in
exponential notation instead — the counterexample theorem shows this on
an 18-significant-digit amount, so the claim's unqualified rendering
promise fails there. The spec's three concrete examples hold. -/
theorem toQuantums_floor (s : String) (p : ℕ) (d : Dec)
    (h1 : bigNumParse s = JsNum.num d)
    (h2 : |⌊d.toRat * (10:ℚ) ^ p⌋| < 10 ^ 21) :
    toQuantums s p = (⌊d.toRat * (10:ℚ) ^ p⌋ : ℤ).repr ∧
    toQuantums "1.23456789" 8 = "123456789" ∧
    toQuantums "1.234567891" 8 = "123456789" ∧
    toQuantums "0" 8 = "0" := by
  refine ⟨?_, by decide, by decide, by decide⟩
  unfold toQuantums
  rw [h1]
  show bnIntToString (decFloor ⟨d.m, d.e + (p : ℤ)⟩) = _
  have hN : decFloor ⟨d.m, d.e + (p : ℤ)⟩ = ⌊d.toRat * (10:ℚ) ^ p⌋ := by
    rw [decFloor_eq_floor]
    congr 1
    unfold Dec.toRat
    rw [zpow_add₀ (by norm_num : (10:ℚ) ≠ 0), ← mul_assoc, zpow_natCast]
  rw [hN]
  unfold bnIntToString
  rw [if_pos]
  rw [Int.abs_eq_natAbs] at h2
  exact_mod_cast h2

/-- Claim C2, witness: the floor theorem applied to the spec's own
example amount 1.23456789 at precision 8. -/
theorem toQuantums_floor_witness :
    bigNumParse "1.23456789" = JsNum.num ⟨123456789, -8⟩ ∧
    |⌊(Dec.mk 123456789 (-8)).toRat * (10:ℚ) ^ 8⌋| < 10 ^ 21 ∧
    toQuantums "1.23456789" 8 = (⌊(Dec.mk 123456789 (-8)).toRat * (10:ℚ) ^ 8⌋ : ℤ).repr := by
  have hb : |⌊(Dec.mk 123456789 (-8)).toRat * (10:ℚ) ^ 8⌋| < 10 ^ 21 := by
    norm_num [Dec.toRat]
  exact ⟨by decide, hb, (toQuantums_floor "1.23456789" 8 ⟨123456789, -8⟩ (by decide) hb).1⟩

/-- Claim C2, counterexample: the amount 12345678901234.5678 has exactly
18 significant decimal digits — inside the claim's stated envelope —
and its quantum at precision 8 is 1234567890123456780000, whose
magnitude reaches 10^21; BigNumber.toString therefore renders it in
exponential notation, not as the base-10 integer string the claim
demands. -/
theorem toQuantums_exponential_cex :
    toQuantums "12345678901234.5678" 8 = "1.23456789012345678e+21" ∧
    ¬ toQuantums "12345678901234.5678" 8 = "1234567890123456780000" := by
  constructor <;> decide

/-- Claim C3 (amended): a malformed numeric string does not fail with a
ParseError — the BigNumber constructor (DEBUG unset) yields a NaN value,
NaN propagates through the multiply and floor, and toQuantums returns
the string NaN to its caller as an ordinary value. -/
theorem toQuantums_nan (s : String) (p : ℕ) (h : bigNumParse s = JsNum.nan) :
    toQuantums s p = "NaN" := by
  unfold toQuantums
  rw [h]
  rfl

/-- Claim C3, witness: the NaN theorem applied to the malformed
amount "abc". -/
theorem toQuantums_nan_witness :
    bigNumParse "abc" = JsNum.nan ∧ toQuantums "abc" 8 = "NaN" :=
  ⟨by decide, toQuantums_nan "abc" 8 (by decide)⟩

/-- Claim C3, counterexample: on the malformed amount "abc" toQuantums
returns the value "NaN" — its type is a plain string and no error is
raised or returned, contradicting the claim that a ParseError reaches
the caller rather than a value. -/
theorem toQuantums_no_parse_error_cex :
    toQuantums "abc" 8 = "NaN" := by decide

/-- Claim C4 (amended): when building the Order typed message, the side
field is "1" exactly when the input side is "BUY" and "2" in every
other case — "SELL" maps to "2", but so does every other side value;
nothing is rejected (the source writes side === "BUY" ? "1" : "2"). -/
theorem signOrder_side_encoding (od : OrderDetails) (ts : ℤ) :
    ((signOrderMessage od ts).side = "1" ↔ od.side = "BUY") ∧
    ((signOrderMessage od ts).side = "2" ↔ ¬ od.side = "BUY") := by
  by_cases h : od.side = "BUY" <;> simp [signOrderMessage, h]

/-- Claim C4, counterexample: the side "HOLD" is neither "BUY" nor
"SELL", yet the message builder silently encodes it as "2" instead of
rejecting it. -/
theorem signOrder_side_cex :
    (signOrderMessage
      { market := "BTC-USD-PERP", side := "HOLD", type := "MARKET", size := "1",
        price := none, timeInForceType := none } 1700000000000).side = "2" := by decide

/-- Claim C5: the source computes min(20, 20 * (1 - volatility * 5))
with no lower clamp, so at volatility 0.3 the returned max leverage is
-10, which is negative — the code contradicts the claim (and the spec
itself flags the missing clamp as a bug in the source). -/
theorem calculatePositionLimits_negative_leverage :
    (calculatePositionLimits 1000 0.3).maxLeverage = -10 ∧
    (calculatePositionLimits 1000 0.3).maxLeverage < 0 := by
  norm_num [calculatePositionLimits, min_def]

/-- Claim C6: the risk band of calculatePositionLimits agrees with the
spec's thresholds — volatility below 0.02 is LOW with a 50 percent
equity cap and 2 percent stop, below 0.05 is MEDIUM with a 30 percent
cap and 5 percent stop, otherwise HIGH with a 10 percent cap and 10
percent stop — and the recommended size is the minimum of the band's
cap and a quarter of the maximum position value. -/
theorem calculatePositionLimits_risk_bands (av v : ℚ) :
    (calculatePositionLimits av v).riskBand = riskBandSpec av v ∧
    (calculatePositionLimits av v).recommendedPositionSize =
      min ((calculatePositionLimits av v).riskBand.maxPositionSize)
        ((calculatePositionLimits av v).maxPositionValue * 0.25) :=
  ⟨rfl, rfl⟩

/-- Claim C7: batch execution isolates per-item failures. The result
list has the length of the input list; the slot of every order is
determined by that order's own outcome alone — a success is recorded
with its id and status, a failure is recorded in place with status
FAILED and the thrown message in the error field — and the whole batch
is a total function, so no exception escapes. The closed conjunct is
the spec's scenario: of three orders the second fails validation
(price "0"), its slot alone is FAILED with a populated message, and its
siblings succeed. -/
theorem executeBatchOrders_isolation (f : OrderDetails → Except String OpenOrderOk)
    (orders : List OrderDetails) :
    (executeBatchOrders f orders).length = orders.length ∧
    (∀ (i : ℕ) (od : OrderDetails), orders[i]? = some od →
      (executeBatchOrders f orders)[i]? = some ((match f od with
        | Except.ok r => { orderId := r.orderId, market := od.market, status := r.status, error := none }
        | Except.error e =>
            { orderId := "", market := od.market, status := "FAILED", error := some e }) :
          BatchOrderResult)) ∧
    executeBatchOrders
        (openOrderModel (fun od => Except.ok { orderId := "ord-" ++ od.market, status := "NEW" }))
        [{ market := "ETH-USD-PERP", side := "BUY", type := "LIMIT", size := "1",
           price := some "3000", timeInForceType := none },
         { market := "BTC-USD-PERP", side := "BUY", type := "LIMIT", size := "1",
           price := some "0", timeInForceType := none },
         { market := "SOL-USD-PERP", side := "SELL", type := "LIMIT", size := "2",
           price := some "150", timeInForceType := none }]
      = [{ orderId := "ord-ETH-USD-PERP", market := "ETH-USD-PERP", status := "NEW", error := none },
         { orderId := "", market := "BTC-USD-PERP", status := "FAILED",
           error := some "Order failed: price must be a non-negative non-zero number." },
         { orderId := "ord-SOL-USD-PERP", market := "SOL-USD-PERP", status := "NEW", error := none }] := by
  refine ⟨by simp [executeBatchOrders], ?_, by decide⟩
  intro i od h
  cases hf : f od <;> simp [executeBatchOrders, List.getElem?_map, h, hf]

/-- Claim C8: for every clock reading, the auth timestamp is the floor
of the current time in seconds and the expiration exceeds it by exactly
7 * 24 * 3600 = 604800 seconds (adding seven days in milliseconds
before the floor division is exact because 604800000 is a multiple of
1000). -/
theorem generateTimestamps_expiration (nowMs : ℕ) :
    (generateTimestamps nowMs).timestamp = nowMs / 1000 ∧
    (generateTimestamps nowMs).expiration = (generateTimestamps nowMs).timestamp + 7 * 24 * 3600 ∧
    (generateTimestamps nowMs).expiration - (generateTimestamps nowMs).timestamp = 604800 := by
  refine ⟨rfl, ?_, ?_⟩ <;> simp only [generateTimestamps, SEVEN_DAYS_MS] <;> omega

/-- Claim C9 (amended): not every core operation surfaces its failures.
getPositions, getOpenOrders and cancelOrder catch every failure — a
non-ok HTTP status as well as a rejected fetch — log it, and return
undefined to the caller; by contrast listAvailableMarkets and
authenticate rethrow, so their failures stay typed errors. -/
theorem silent_failure_paths (status : ℕ) (stx : String) (b : JsonBody) (m : String) :
    getPositions (FetchOutcome.response false status stx b) = JsResult.undef ∧
    getPositions (FetchOutcome.networkError m) = JsResult.undef ∧
    getOpenOrders (FetchOutcome.response false status stx b) = JsResult.undef ∧
    getOpenOrders (FetchOutcome.networkError m) = JsResult.undef ∧
    cancelOrder (FetchOutcome.response false status stx b) = JsResult.undef ∧
    cancelOrder (FetchOutcome.networkError m) = JsResult.undef ∧
    listAvailableMarkets (FetchOutcome.networkError m) = JsResult.thrown m ∧
    listAvailableMarkets (FetchOutcome.response false status stx b) =
      JsResult.thrown ("HTTP error! status: " ++ toString status) ∧
    authenticate (FetchOutcome.networkError m) = JsResult.thrown m :=
  ⟨rfl, rfl, rfl, rfl, rfl, rfl, rfl, rfl, rfl⟩

/-- Claim C9, counterexample: on a 500 response, getPositions,
getOpenOrders and cancelOrder each return undefined — the failure is
caught, logged and hidden, not returned or raised as a typed error. -/
theorem getPositions_swallows_cex :
    getPositions (FetchOutcome.response false 500 "Internal Server Error"
      { results := none, jwtToken := none, message := none }) = JsResult.undef ∧
    getOpenOrders (FetchOutcome.response false 500 "Internal Server Error"
      { results := none, jwtToken := none, message := none }) = JsResult.undef ∧
    cancelOrder (FetchOutcome.response false 500 "Internal Server Error"
      { results := none, jwtToken := none, message := none }) = JsResult.undef :=
  ⟨rfl, rfl, rfl⟩

/-- Claim C10: when the HTTP exchange succeeds but the body has no
jwt_token field, authenticate throws the fixed message rather than
returning; and on a successful status it can only return a token the
body actually carried, never a missing or empty one. -/
theorem authenticate_missing_jwt (status : ℕ) (stx : String)
    (results : Option (List String)) (message : Option String) :
    authenticate (FetchOutcome.response true status stx
      { results := results, jwtToken := none, message := message }) =
      JsResult.thrown "No JWT token received from authentication" ∧
    (∀ body t, authenticate (FetchOutcome.response true status stx body) = JsResult.value t →
      body.jwtToken = some t ∧ ¬ t = "") := by
  refine ⟨rfl, ?_⟩
  intro body t h
  simp only [authenticate, if_true] at h
  cases hj : body.jwtToken with
  | none => rw [hj] at h; simp at h
  | some u =>
    rw [hj] at h
    by_cases hu : u = ""
    · simp [hu] at h
    · simp only [hu, if_false] at h
      have : u = t := by
        by_contra hne
        simp [hne] at h
      subst this
      exact ⟨rfl, hu⟩

end Paradex
